import Mathlib

/-!
# Shallow embedding of the census quality scoring engine

This file embeds the deterministic core of the group-life census data agent
(`src/services/geminiService.ts`): the monetary/float parsing helpers, the date
helpers, and the scoring engine `analyzeCensusData`, together with theorems
about the claims of the specification.

Modelling conventions:
* JavaScript numbers are modelled as exact rationals (`ℚ`).  The program only
  performs arithmetic on small counts, fixed decimal constants and divisions by
  the record count, so the rational model follows the source formulas exactly;
  non-finite values (`NaN`, `Infinity`) are outside the model.
* `Math.round x` is modelled as `⌊x + 1/2⌋` (round half towards positive
  infinity), `Math.ceil` as `⌈x⌉`.
* The implicit current time (`new Date()` inside `getDaysSince`) is made an
  explicit parameter `now`, a count of milliseconds since the Unix epoch.  The
  source constructs one `Date` per call; the model uses a single `now` for the
  whole analysis.
* `new Date(dateStr)` parsing is modelled for ISO-8601 date-only strings
  `YYYY-MM-DD` (interpreted at UTC midnight, with month/day range validation);
  every other string is an invalid date.
* The TypeScript union `number | string` of the salary/coverage fields is the
  inductive `NumOrStr`.
-/

/-- The TypeScript union type `number | string` used by census row fields. -/
inductive NumOrStr : Type where
  | num (q : ℚ)
  | str (s : String)
  deriving DecidableEq, Repr

/-- Decimal digits accumulated into a natural number (most significant first). -/
def digitsToNat (cs : List Char) : Nat :=
  cs.foldl (fun acc c => acc * 10 + (c.toNat - Char.toNat '0')) 0

/-- Exponent part of a JavaScript float literal: optional sign then digits;
if no digit follows, the exponent part is not consumed and contributes 0
(`parseFloat` takes the longest valid literal prefix). -/
def expOf (cs : List Char) : Int :=
  let (esgn, cs1) :=
    match cs with
    | '-' :: rest => ((-1 : Int), rest)
    | '+' :: rest => ((1 : Int), rest)
    | _ => ((1 : Int), cs)
  let (ds, _) := cs1.span Char.isDigit
  if ds.isEmpty then 0 else esgn * (digitsToNat ds : Int)

/-- Character-level stage of JavaScript `parseFloat`: skip leading whitespace,
then recognise the longest prefix of the form
`[+-]? digits [. digits] [(e|E) [+-]? digits]`, ignoring trailing characters.
Returns `(negative, integer digits, fraction digits, fraction length,
exponent)`; `none` models the `NaN` result.  (Non-finite literals such as
`Infinity` are outside the rational model and yield `none`.) -/
def jsParseFloatRaw (s : String) : Option (Bool × Nat × Nat × Nat × Int) :=
  let cs := s.toList.dropWhile Char.isWhitespace
  let (neg, cs1) :=
    match cs with
    | '-' :: rest => (true, rest)
    | '+' :: rest => (false, rest)
    | _ => (false, cs)
  let (intPart, cs2) := cs1.span Char.isDigit
  let (fracPart, cs3) :=
    match cs2 with
    | '.' :: rest => rest.span Char.isDigit
    | _ => (([] : List Char), cs2)
  if intPart.isEmpty && fracPart.isEmpty then none
  else
    let expVal : Int :=
      match cs3 with
      | 'e' :: rest => expOf rest
      | 'E' :: rest => expOf rest
      | _ => 0
    some (neg, digitsToNat intPart, digitsToNat fracPart, fracPart.length, expVal)

/-- JavaScript `parseFloat` as a rational: sign × (integer part + fraction) ×
10^exponent over the recognised literal. -/
def jsParseFloat (s : String) : Option ℚ :=
  (jsParseFloatRaw s).map (fun r =>
    (if r.1 then (-1 : ℚ) else 1) *
      ((r.2.1 : ℚ) + (r.2.2.1 : ℚ) / (10 : ℚ) ^ r.2.2.2.1) * (10 : ℚ) ^ r.2.2.2.2)

/-- Characters kept by `parseMoney`: the regex class `[0-9.-]`. -/
def moneyChar (c : Char) : Bool := c.isDigit || c = '.' || c = '-'

/-- `parseMoney` from the source: a numeric value is returned as-is; an empty
string gives 0; otherwise every character outside `[0-9.-]` is stripped and the
rest parsed with `parseFloat`, with `|| 0` mapping `NaN` to 0. -/
def parseMoney : NumOrStr → ℚ
  | NumOrStr.num q => q
  | NumOrStr.str s =>
    if s = "" then 0
    else (jsParseFloat (String.mk (s.toList.filter moneyChar))).getD 0

/-- `parseFloat(v as string) || 0` applied to a `number | string` field: for a
(finite) number, `parseFloat(String(v))` returns the number itself. -/
def parseFloatOrZero : NumOrStr → ℚ
  | NumOrStr.num q => q
  | NumOrStr.str s => (jsParseFloat s).getD 0

/-- Gregorian leap year. -/
def isLeapYear (y : Int) : Bool := (y % 4 = 0 && y % 100 ≠ 0) || y % 400 = 0

/-- Days in a month of the proleptic Gregorian calendar. -/
def daysInMonth (y m : Int) : Int :=
  if m = 2 then (if isLeapYear y then 29 else 28)
  else if m = 4 || m = 6 || m = 9 || m = 11 then 30
  else 31

/-- Days from 1970-01-01 to the civil date `y-m-d` (Gregorian). -/
def daysFromCivil (y m d : Int) : Int :=
  let y1 := if m ≤ 2 then y - 1 else y
  let era := (if 0 ≤ y1 then y1 else y1 - 399) / 400
  let yoe := y1 - era * 400
  let mp := (m + 9) % 12
  let doy := (153 * mp + 2) / 5 + d - 1
  let doe := yoe * 365 + yoe / 4 - yoe / 100 + doy
  era * 146097 + doe - 719468

/-- Milliseconds in a day. -/
def msPerDay : Int := 86400000

/-- `new Date(dateStr).getTime()` restricted to ISO-8601 date-only strings
`YYYY-MM-DD` (UTC midnight); `none` models an invalid date (`NaN` time). -/
def jsParseDate (s : String) : Option Int :=
  match s.toList with
  | [y1, y2, y3, y4, h1, m1, m2, h2, d1, d2] =>
    if y1.isDigit && y2.isDigit && y3.isDigit && y4.isDigit && h1 = '-' &&
       m1.isDigit && m2.isDigit && h2 = '-' && d1.isDigit && d2.isDigit then
      let y : Int := (digitsToNat [y1, y2, y3, y4] : Int)
      let m : Int := (digitsToNat [m1, m2] : Int)
      let d : Int := (digitsToNat [d1, d2] : Int)
      if 1 ≤ m && m ≤ 12 && 1 ≤ d && d ≤ daysInMonth y m then
        some (daysFromCivil y m d * msPerDay)
      else none
    else none
  | _ => none

/-- `isValidDate` from the source: empty strings are invalid, otherwise the
string is valid when it parses to a date. -/
def isValidDate (s : String) : Bool :=
  if s = "" then false else (jsParseDate s).isSome

/-- `getDaysSince` from the source: 9999 for an invalid date, otherwise
`Math.ceil(|now − d| / msPerDay)`.  (`jsParseDate s = none` exactly when
`isValidDate s = false`.) -/
def getDaysSince (now : Int) (s : String) : Int :=
  match jsParseDate s with
  | none => 9999
  | some d => ⌈((|now - d| : Int) : ℚ) / ((msPerDay : Int) : ℚ)⌉

/-- `Math.round`, returning a JavaScript number: round half up. -/
def jsRound (q : ℚ) : ℚ := ((⌊q + 1/2⌋ : Int) : ℚ)

/-- `Math.ceil`, returning a JavaScript number. -/
def jsCeil (q : ℚ) : ℚ := ((⌈q⌉ : Int) : ℚ)

/-! ## Data model (from `src/types.ts`) -/

/-- A normalized census row, from `src/types.ts`. -/
structure CensusRow where
  employeeId : String
  name : String
  dob : String
  employmentStatus : String
  hireDate : String
  annualSalary : NumOrStr
  basicLifeCoverage : NumOrStr
  voluntaryLifeMultiple : NumOrStr
  dependentElections : String
  deriving DecidableEq, Repr

/-- The severity union `'Low' | 'Medium' | 'High'`. -/
inductive Severity : Type where
  | low
  | medium
  | high
  deriving DecidableEq, Repr

/-- An issue entry, from `src/types.ts` (counts are JavaScript numbers). -/
structure RiskIssue where
  type : String
  count : ℚ
  severity : Severity
  description : String
  deriving DecidableEq, Repr

/-- A named sub-score, from `src/types.ts`. -/
structure SubScore where
  name : String
  score : ℚ
  issues : List RiskIssue
  deriving DecidableEq, Repr

/-- The risk-band union `'Low' | 'Moderate' | 'High'`. -/
inductive RiskLevel : Type where
  | low
  | moderate
  | high
  deriving DecidableEq, Repr

/-- The string rendering of a risk band. -/
def RiskLevel.display : RiskLevel → String
  | RiskLevel.low => "Low"
  | RiskLevel.moderate => "Moderate"
  | RiskLevel.high => "High"

/-- `riskLevel.toLowerCase()` as used by the executive summary. -/
def RiskLevel.lower : RiskLevel → String
  | RiskLevel.low => "low"
  | RiskLevel.moderate => "moderate"
  | RiskLevel.high => "high"

/-- The four sub-scores of an analysis result. -/
structure SubScores where
  completeness : SubScore
  consistency : SubScore
  eligibility : SubScore
  eoiRisk : SubScore
  deriving DecidableEq, Repr

/-- The predicted-impact block. -/
structure PredictedImpact where
  clarifications : String
  eoiVolume : ℚ
  postIssueCorrectionRisk : String
  deriving DecidableEq, Repr

/-- A recommended action. -/
structure RecommendedAction where
  area : String
  recommendation : String
  deriving DecidableEq, Repr

/-- The engine output, from `src/types.ts`. -/
structure AnalysisResult where
  overallScore : ℚ
  riskLevel : RiskLevel
  totalEmployees : ℚ
  subScores : SubScores
  anomalies : List RiskIssue
  executiveSummary : String
  topRiskDrivers : List String
  predictedImpact : PredictedImpact
  recommendedActions : List RecommendedAction
  deriving DecidableEq, Repr

/-! ## Scoring constants (from `src/services/geminiService.ts`) -/

def GI_LIMIT : ℚ := 150000

def PLAN_MAX_VOL_MULTIPLE : ℚ := 5

def WAITING_PERIOD_DAYS : Int := 30

def PENALTY_MISSING_SALARY : ℚ := 5

def PENALTY_MISSING_DOB : ℚ := 4

def PENALTY_VOL_OVER_MAX : ℚ := 6

def PENALTY_ZERO_SALARY_COV : ℚ := 5

def PENALTY_WAITING_PERIOD : ℚ := 5

def PENALTY_INELIGIBLE_DEP : ℚ := 4

def PENALTY_EOI_MISSING_SALARY : ℚ := 3

/-- `ineligibleDepCount` is declared and never incremented in the source:
a deliberate no-op placeholder. -/
def ineligibleDepCount : Nat := 0

/-! ## Issue counting (the single `forEach` pass of `analyzeCensusData`) -/

/-- The per-row condition counters accumulated by the engine. -/
structure Counts where
  missingSalary : Nat
  missingDob : Nat
  volOverMax : Nat
  zeroSalary : Nat
  waitingPeriod : Nat
  exceedingGI : Nat
  dupId : Nat
  deriving DecidableEq, Repr

/-- Insert-or-increment on the insertion-ordered map `employeeIdCounts`
(a JavaScript `Map<string, number>` modelled as an association list). -/
def bump : List (String × Nat) → String → List (String × Nat)
  | [], k => [(k, 1)]
  | (k1, c) :: rest, k =>
    if k1 = k then (k1, c + 1) :: rest else (k1, c) :: bump rest k

/-- `if (count > 1) duplicateIdCount += count - 1` summed over the map. -/
def sumExcess (m : List (String × Nat)) : Nat :=
  (m.map (fun p => if 1 < p.2 then p.2 - 1 else 0)).sum

/-- All counters zero. -/
def initCounts : Counts := ⟨0, 0, 0, 0, 0, 0, 0⟩

/-- One iteration of the `rows.forEach` loop: parse the row and bump each
counter whose condition holds, and record the employee id when non-empty. -/
def countStep (now : Int) (acc : Counts × List (String × Nat)) (row : CensusRow) :
    Counts × List (String × Nat) :=
  let salary := parseMoney row.annualSalary
  let volMult := parseFloatOrZero row.voluntaryLifeMultiple
  let basicCov := parseMoney row.basicLifeCoverage
  let totalVolume := basicCov + salary * volMult
  let c := acc.1
  ({ missingSalary := c.missingSalary + (if 0 < salary then 0 else 1)
     missingDob := c.missingDob + (if row.dob = "" ∨ ¬ isValidDate row.dob then 1 else 0)
     volOverMax := c.volOverMax + (if PLAN_MAX_VOL_MULTIPLE < volMult then 1 else 0)
     zeroSalary := c.zeroSalary + (if 0 < volMult ∧ ¬ 0 < salary then 1 else 0)
     waitingPeriod := c.waitingPeriod +
       (if row.hireDate ≠ "" ∧ isValidDate row.hireDate ∧
           getDaysSince now row.hireDate < WAITING_PERIOD_DAYS then 1 else 0)
     exceedingGI := c.exceedingGI + (if GI_LIMIT < totalVolume then 1 else 0)
     dupId := c.dupId },
   if row.employeeId ≠ "" then bump acc.2 row.employeeId else acc.2)

/-- The issue counters of an analysis run: the single pass over the rows,
followed by the excess-occurrence duplicate count. -/
def countIssues (rows : List CensusRow) (now : Int) : Counts :=
  let r := rows.foldl (countStep now) (initCounts, [])
  { r.1 with dupId := sumExcess r.2 }

/-! ## Sub-score formulas -/

/-- Completeness (weight 30%): raw deductions, then a density bonus, clamped. -/
def completenessScore (c : Counts) (total : Nat) : ℚ :=
  let rawDeductions := (c.missingSalary : ℚ) * PENALTY_MISSING_SALARY +
    (c.missingDob : ℚ) * PENALTY_MISSING_DOB
  let raw := 100 - rawDeductions
  let density := ((c.missingSalary : ℚ) + (c.missingDob : ℚ)) / (total : ℚ)
  let adj : ℚ := if density ≤ 0.05 then 15 else if density ≤ 0.10 then 10 else 0
  min 100 (max 0 (raw + adj))

/-- Consistency (weight 25%): raw deductions, then a density penalty, clamped. -/
def consistencyScore (c : Counts) (total : Nat) : ℚ :=
  let raw := 100 - ((c.volOverMax : ℚ) * PENALTY_VOL_OVER_MAX +
    (c.zeroSalary : ℚ) * PENALTY_ZERO_SALARY_COV)
  let errCount := c.volOverMax + c.zeroSalary
  let density := (errCount : ℚ) / (total : ℚ)
  let adj : ℚ := if 0 < errCount then (if density ≤ 0.05 then -9 else -15) else 0
  min 100 (max 0 (raw + adj))

/-- Eligibility (weight 25%): waiting-period and (always-zero) dependent
deductions, clamped. -/
def eligibilityScore (c : Counts) : ℚ :=
  min 100 (max 0 (100 - ((c.waitingPeriod : ℚ) * PENALTY_WAITING_PERIOD +
    (ineligibleDepCount : ℚ) * PENALTY_INELIGIBLE_DEP)))

/-- Percentage of the group exceeding the Guaranteed-Issue limit. -/
def eoiRatePercent (c : Counts) (total : Nat) : ℚ :=
  ((c.exceedingGI : ℚ) / (total : ℚ)) * 100

/-- EOI risk (weight 20%): GI-rate and missing-salary deductions, clamped. -/
def eoiScore (c : Counts) (total : Nat) : ℚ :=
  min 100 (max 0 (100 - eoiRatePercent c total * 0.8 -
    (c.missingSalary : ℚ) * PENALTY_EOI_MISSING_SALARY))

/-- The weighted overall score before rounding. -/
def weightedScore (c : Counts) (total : Nat) : ℚ :=
  completenessScore c total * 0.30 + consistencyScore c total * 0.25 +
    eligibilityScore c * 0.25 + eoiScore c total * 0.20

/-- The risk band of an overall score. -/
def riskLevelOf (overall : ℚ) : RiskLevel :=
  if 85 ≤ overall then RiskLevel.low
  else if 70 ≤ overall then RiskLevel.moderate
  else RiskLevel.high

/-! ## Derived artifacts -/

def driverGI (n : Nat) : String :=
  toString n ++ " employees exceed GI ($150k) → EOI required"

def driverMissingSalary (n : Nat) : String := toString n ++ " missing salary records"

def driverWaiting (n : Nat) : String := toString n ++ " employees in waiting period"

def driverVolOverMax (n : Nat) : String :=
  toString n ++ " coverage elections exceeding plan max (5x)"

def driverDup (n : Nat) : String := toString n ++ " duplicate IDs"

/-- The dynamically generated risk-driver list, in the fixed source order. -/
def driversList (c : Counts) : List String :=
  (if 0 < c.exceedingGI then [driverGI c.exceedingGI] else []) ++
  (if 0 < c.missingSalary then [driverMissingSalary c.missingSalary] else []) ++
  (if 0 < c.waitingPeriod then [driverWaiting c.waitingPeriod] else []) ++
  (if 0 < c.volOverMax then [driverVolOverMax c.volOverMax] else []) ++
  (if 0 < c.dupId then [driverDup c.dupId] else [])

/-- The anomaly list: duplicates, and missing salaries above 10% of the group. -/
def anomaliesList (c : Counts) (total : Nat) : List RiskIssue :=
  (if 0 < c.dupId then
    [⟨"Duplicate IDs", (c.dupId : ℚ), Severity.high, "Duplicate employee IDs found"⟩]
   else []) ++
  (if (total : ℚ) * 0.1 < (c.missingSalary : ℚ) then
    [⟨"Missing Salaries", (c.missingSalary : ℚ), Severity.high,
      "High volume of missing salaries"⟩]
   else [])

/-- The fixed-order conditional action list with its fallback. -/
def actionsList (c : Counts) : List RecommendedAction :=
  let acts :=
    (if 0 < c.missingSalary then
      [⟨"Missing Salary", "Employer clarification upfront"⟩] else []) ++
    (if 0 < c.exceedingGI then
      [⟨"EOI Volume", "Pre-emptive EOI communication"⟩] else []) ++
    (if 0 < c.dupId then
      [⟨"Duplicates", "Deduplicate before enrollment"⟩] else []) ++
    (if 0 < c.volOverMax then
      [⟨"Plan Limits", "Cap voluntary elections at 5x"⟩] else [])
  if acts.length = 0 then [⟨"General", "Proceed to enrollment"⟩] else acts

/-- The templated executive summary. -/
def execSummary (risk : RiskLevel) (overall : ℚ) (gi ms : Nat) : String :=
  "This census demonstrates " ++ risk.lower ++ " enrollment risk (Score: " ++
    toString overall ++ "). Primary drivers include " ++ toString gi ++
    " EOI cases and " ++ toString ms ++ " missing data points."

/-- The banded clarification-cycle estimate. -/
def clarificationCycles (overall : ℚ) : String :=
  if overall < 70 then "6+" else if overall < 85 then "4–6" else "1-2"

/-- The banded post-issuance correction risk label. -/
def postIssueRisk (overall : ℚ) : String :=
  if overall < 70 then "High" else if overall < 85 then "Medium" else "Low"

/-- The result built from the counters of a non-empty analysis run. -/
def buildResult (c : Counts) (total : Nat) : AnalysisResult :=
  let completeness := completenessScore c total
  let consistency := consistencyScore c total
  let eligibility := eligibilityScore c
  let eoi := eoiScore c total
  let overall := jsRound (weightedScore c total)
  let risk := riskLevelOf overall
  { overallScore := overall
    riskLevel := risk
    totalEmployees := (total : ℚ)
    subScores :=
      { completeness := ⟨"Completeness", jsRound completeness,
          [⟨"Missing Salary", (c.missingSalary : ℚ), Severity.high,
            "Salary field is empty or null"⟩,
           ⟨"Missing DOB", (c.missingDob : ℚ), Severity.medium,
            "Date of birth missing"⟩]⟩
        consistency := ⟨"Consistency", jsRound consistency,
          [⟨"Voluntary > Max", (c.volOverMax : ℚ), Severity.high,
            "Voluntary multiple > plan max (5x)"⟩,
           ⟨"Zero Salary Coverage", (c.zeroSalary : ℚ), Severity.high,
            "Coverage elected with $0 salary"⟩]⟩
        eligibility := ⟨"Eligibility", jsRound eligibility,
          [⟨"Waiting Period", (c.waitingPeriod : ℚ), Severity.medium,
            "Employees in waiting period (<30 days)"⟩,
           ⟨"Ineligible Dependents", (ineligibleDepCount : ℚ), Severity.medium,
            "Dependents exceeding age limits (Note: Data unavailable)"⟩]⟩
        eoiRisk := ⟨"EOI Risk", jsRound eoi,
          [⟨"Exceeding GI", (c.exceedingGI : ℚ), Severity.high,
            "Employees exceeding Guaranteed Issue ($150k)"⟩,
           ⟨"EOI Rate", jsRound (eoiRatePercent c total), Severity.medium,
            "% of group requiring EOI"⟩]⟩ }
    anomalies := anomaliesList c total
    executiveSummary := execSummary risk overall c.exceedingGI c.missingSalary
    topRiskDrivers := (driversList c).take 5
    predictedImpact := ⟨clarificationCycles overall ++ " cycles",
      jsCeil ((c.exceedingGI : ℚ) * 1.1), postIssueRisk overall⟩
    recommendedActions := actionsList c }

/-- The fixed degenerate result returned for an empty input. -/
def emptyResult : AnalysisResult :=
  { overallScore := 0
    riskLevel := RiskLevel.high
    totalEmployees := 0
    subScores :=
      { completeness := ⟨"Completeness", 0, []⟩
        consistency := ⟨"Consistency", 0, []⟩
        eligibility := ⟨"Eligibility", 0, []⟩
        eoiRisk := ⟨"EOI Risk", 0, []⟩ }
    anomalies := []
    executiveSummary := "No data found in file."
    topRiskDrivers := []
    predictedImpact := ⟨"0", 0, "None"⟩
    recommendedActions := [] }

/-- The core engine `analyzeCensusData`, with the current time explicit. -/
def analyzeCensusData (rows : List CensusRow) (now : Int) : AnalysisResult :=
  if rows.length = 0 then emptyResult
  else buildResult (countIssues rows now) rows.length

/-! ## Helper definitions for the duplicate-count analysis -/

/-- The keys of the association list, in insertion order. -/
def mapKeys (m : List (String × Nat)) : List String := m.map Prod.fst

/-- First-match lookup in the association list, defaulting to 0. -/
def getCnt : List (String × Nat) → String → Nat
  | [], _ => 0
  | (k, c) :: rest, k2 => if k = k2 then c else getCnt rest k2

/-- The non-empty employee identifiers of a record sequence, in order. -/
def nonEmptyIds (rows : List CensusRow) : List String :=
  (rows.map (fun r => r.employeeId)).filter (fun s => s ≠ "")

/-! ## Concrete inputs used by witnesses and counterexamples -/

/-- A row with the given identifier, date of birth, salary, hire date and
voluntary multiple, with zero basic coverage. -/
def mkRow (id dob : String) (salary : ℚ) (hire : String) : CensusRow :=
  { employeeId := id
    name := "N"
    dob := dob
    employmentStatus := "Active"
    hireDate := hire
    annualSalary := NumOrStr.num salary
    basicLifeCoverage := NumOrStr.num 0
    voluntaryLifeMultiple := NumOrStr.num 0
    dependentElections := "" }

/-- Ten records: 2 with salary 0, 1 with an invalid date of birth, and no
other condition triggered. -/
def c7rows : List CensusRow :=
  [mkRow "E1" "1990-01-05" 0 "", mkRow "E2" "1990-01-05" 0 "",
   mkRow "E3" "not-a-date" 50000 "", mkRow "E4" "1990-01-05" 50000 "",
   mkRow "E5" "1990-01-05" 50000 "", mkRow "E6" "1990-01-05" 50000 "",
   mkRow "E7" "1990-01-05" 50000 "", mkRow "E8" "1990-01-05" 50000 "",
   mkRow "E9" "1990-01-05" 50000 "", mkRow "E10" "1990-01-05" 50000 ""]

/-- The epoch milliseconds of 2026-10-01 (a valid hire date). -/
def hireMs : Int := (jsParseDate "2026-10-01").getD 0

/-- A moment 4 days after `hireMs`: the row is inside the 30-day waiting
period. -/
def nowInWaiting : Int := hireMs + 4 * msPerDay

/-- A moment 61 days after `hireMs`: the waiting period has passed. -/
def nowAfterWaiting : Int := hireMs + 61 * msPerDay

/-- A single valid row hired on 2026-10-01. -/
def c2row : CensusRow := mkRow "E1" "1990-01-01" 50000 "2026-10-01"

/-- A recently hired row with basic coverage exceeding the Guaranteed-Issue
limit. -/
def giRow : CensusRow :=
  { mkRow "E5" "1990-01-01" 50000 "2026-10-01" with
      basicLifeCoverage := NumOrStr.num 200000 }

/-- Six records at `nowInWaiting`: 4 with salary 0, 1 exceeding GI, 2 in the
waiting period, everything else clean.  On this input the overall score
differs from the weighted sum of the rounded sub-scores. -/
def c10rows : List CensusRow :=
  [mkRow "E1" "1990-01-01" 0 "", mkRow "E2" "1990-01-01" 0 "",
   mkRow "E3" "1990-01-01" 0 "", mkRow "E4" "1990-01-01" 0 "",
   giRow, mkRow "E6" "1990-01-01" 50000 "2026-10-01"]

/-! ## Utility lemmas -/

/-- Rewriting `Int.ceil` through `Int.floor`, which `norm_num` evaluates. -/
theorem ceil_via_floor (q : ℚ) : ⌈q⌉ = -⌊-q⌋ := by
  conv_lhs => rw [← neg_neg q]
  rw [Int.ceil_neg]

example : parseMoney (NumOrStr.str "$55,000") = 55000 := by
  have h : jsParseFloatRaw (String.mk ("$55,000".toList.filter moneyChar)) =
      some (false, 55000, 0, 0, 0) := by decide
  simp only [parseMoney, jsParseFloat, h, Option.map_some', Option.getD_some]
  norm_num
  decide

example : jsParseFloat "-.5" = some (-(1/2)) := by
  have h : jsParseFloatRaw "-.5" = some (true, 0, 5, 1, 0) := by decide
  simp only [jsParseFloat, h, Option.map_some']
  norm_num

example : jsParseFloat "1.5e2x" = some 150 := by
  have h : jsParseFloatRaw "1.5e2x" = some (false, 1, 5, 1, 2) := by decide
  simp only [jsParseFloat, h, Option.map_some']
  norm_num

example : jsParseFloat "--5" = none := by
  have h : jsParseFloatRaw "--5" = none := by decide
  simp [jsParseFloat, h]

example : jsParseDate "1970-01-01" = some 0 := by decide

example : jsParseDate "2024-02-30" = none := by decide

/-- The clamp `Math.min(100, Math.max(0, x))` lands in `[0, 100]`. -/
theorem clamp_bounds (x : ℚ) : 0 ≤ min 100 (max 0 x) ∧ min 100 (max 0 x) ≤ 100 :=
  ⟨le_min (by norm_num) (le_max_left 0 x), min_le_left _ _⟩

/-- `Math.round` keeps values of `[0, 100]` inside `[0, 100]`. -/
theorem jsRound_bounds {q : ℚ} (h0 : 0 ≤ q) (h1 : q ≤ 100) :
    0 ≤ jsRound q ∧ jsRound q ≤ 100 := by
  unfold jsRound
  constructor
  · have : (0 : ℤ) ≤ ⌊q + 1/2⌋ := Int.le_floor.2 (by push_cast; linarith)
    exact_mod_cast this
  · have h2 : ⌊q + 1/2⌋ ≤ ⌊(201/2 : ℚ)⌋ := Int.floor_le_floor (by linarith)
    have h3 : ⌊(201/2 : ℚ)⌋ = 100 := by norm_num
    rw [h3] at h2
    exact_mod_cast h2

/-- `Math.round` is monotone. -/
theorem jsRound_mono {a b : ℚ} (h : a ≤ b) : jsRound a ≤ jsRound b := by
  unfold jsRound
  exact_mod_cast Int.floor_le_floor (by linarith)

/-- On a non-empty input the engine is the counter pass followed by the
result construction. -/
theorem analyze_nonempty (rows : List CensusRow) (now : Int) (h : rows ≠ []) :
    analyzeCensusData rows now = buildResult (countIssues rows now) rows.length := by
  have hlen : rows.length ≠ 0 := by simpa [List.length_eq_zero] using h
  simp [analyzeCensusData, hlen]

/-! ## C3: empty input yields the fixed degenerate result -/

/-- C3: for the empty record sequence the engine returns the fixed degenerate
result: overall score 0, risk band High, all four sub-scores 0 with empty
issue lists, executive summary exactly "No data found in file.", empty
anomaly list, empty top-risk-driver list, and predicted EOI volume 0. -/
theorem empty_input_degenerate (now : Int) :
    (analyzeCensusData [] now).overallScore = 0 ∧
    (analyzeCensusData [] now).riskLevel = RiskLevel.high ∧
    (analyzeCensusData [] now).subScores.completeness.score = 0 ∧
    (analyzeCensusData [] now).subScores.completeness.issues = [] ∧
    (analyzeCensusData [] now).subScores.consistency.score = 0 ∧
    (analyzeCensusData [] now).subScores.consistency.issues = [] ∧
    (analyzeCensusData [] now).subScores.eligibility.score = 0 ∧
    (analyzeCensusData [] now).subScores.eligibility.issues = [] ∧
    (analyzeCensusData [] now).subScores.eoiRisk.score = 0 ∧
    (analyzeCensusData [] now).subScores.eoiRisk.issues = [] ∧
    (analyzeCensusData [] now).executiveSummary = "No data found in file." ∧
    (analyzeCensusData [] now).anomalies = [] ∧
    (analyzeCensusData [] now).topRiskDrivers = [] ∧
    (analyzeCensusData [] now).predictedImpact.eoiVolume = 0 :=
  ⟨rfl, rfl, rfl, rfl, rfl, rfl, rfl, rfl, rfl, rfl, rfl, rfl, rfl, rfl⟩

/-! ## C4: the recommended-action list (corrected) -/

/-- C4 counterexample: the claim says the recommended-action list is non-empty
for every input including the empty one, but the empty input returns an empty
action list. -/
theorem c4_counterexample : (analyzeCensusData [] 0).recommendedActions = [] := rfl

/-- A length-guarded fallback is never the empty list. -/
theorem fallback_ne_nil {α : Type} (a : α) (l : List α) :
    (if l.length = 0 then [a] else l) ≠ [] := by
  split
  · simp
  · next h =>
    intro hn
    rw [hn] at h
    exact h rfl

/-- The conditional action list always ends non-empty. -/
theorem actionsList_ne_nil (c : Counts) : actionsList c ≠ [] := by
  simp only [actionsList]
  exact fallback_ne_nil _ _

/-- C4 (amended): for every non-empty input the recommended-action list is
non-empty, and when no conditional action applies it is exactly the single
fallback General / Proceed to enrollment action. -/
theorem actions_nonempty (rows : List CensusRow) (now : Int) (h : rows ≠ []) :
    (analyzeCensusData rows now).recommendedActions ≠ [] ∧
    ((countIssues rows now).missingSalary = 0 →
     (countIssues rows now).exceedingGI = 0 →
     (countIssues rows now).dupId = 0 →
     (countIssues rows now).volOverMax = 0 →
     (analyzeCensusData rows now).recommendedActions =
       [⟨"General", "Proceed to enrollment"⟩]) := by
  rw [analyze_nonempty rows now h]
  constructor
  · show actionsList (countIssues rows now) ≠ []
    exact actionsList_ne_nil _
  · intro h1 h2 h3 h4
    show actionsList (countIssues rows now) = _
    simp [actionsList, h1, h2, h3, h4]

/-- C4 witness: the amended statement at a concrete clean one-row input. -/
theorem actions_nonempty_witness :
    (analyzeCensusData [mkRow "E1" "1990-01-05" 50000 ""] 0).recommendedActions ≠ [] :=
  (actions_nonempty [mkRow "E1" "1990-01-05" 50000 ""] 0 (by simp)).1

/-! ## C1: all scores lie in [0, 100] -/

/-- Completeness is clamped into `[0, 100]`. -/
theorem completenessScore_bounds (c : Counts) (total : Nat) :
    0 ≤ completenessScore c total ∧ completenessScore c total ≤ 100 := by
  unfold completenessScore
  exact clamp_bounds _

/-- Consistency is clamped into `[0, 100]`. -/
theorem consistencyScore_bounds (c : Counts) (total : Nat) :
    0 ≤ consistencyScore c total ∧ consistencyScore c total ≤ 100 := by
  unfold consistencyScore
  exact clamp_bounds _

/-- Eligibility is clamped into `[0, 100]`. -/
theorem eligibilityScore_bounds (c : Counts) :
    0 ≤ eligibilityScore c ∧ eligibilityScore c ≤ 100 := by
  unfold eligibilityScore
  exact clamp_bounds _

/-- EOI risk is clamped into `[0, 100]`. -/
theorem eoiScore_bounds (c : Counts) (total : Nat) :
    0 ≤ eoiScore c total ∧ eoiScore c total ≤ 100 := by
  unfold eoiScore
  exact clamp_bounds _

/-- The weighted pre-rounding overall score lies in `[0, 100]`. -/
theorem weightedScore_bounds (c : Counts) (total : Nat) :
    0 ≤ weightedScore c total ∧ weightedScore c total ≤ 100 := by
  obtain ⟨h1, h2⟩ := completenessScore_bounds c total
  obtain ⟨h3, h4⟩ := consistencyScore_bounds c total
  obtain ⟨h5, h6⟩ := eligibilityScore_bounds c
  obtain ⟨h7, h8⟩ := eoiScore_bounds c total
  unfold weightedScore
  constructor <;> nlinarith

/-- C1: for every input record sequence the four reported sub-scores and the
overall score lie in `[0, 100]`; for the empty input they are all 0, so the
bound holds for every input. -/
theorem scores_in_range (rows : List CensusRow) (now : Int) :
    (0 ≤ (analyzeCensusData rows now).subScores.completeness.score ∧
      (analyzeCensusData rows now).subScores.completeness.score ≤ 100) ∧
    (0 ≤ (analyzeCensusData rows now).subScores.consistency.score ∧
      (analyzeCensusData rows now).subScores.consistency.score ≤ 100) ∧
    (0 ≤ (analyzeCensusData rows now).subScores.eligibility.score ∧
      (analyzeCensusData rows now).subScores.eligibility.score ≤ 100) ∧
    (0 ≤ (analyzeCensusData rows now).subScores.eoiRisk.score ∧
      (analyzeCensusData rows now).subScores.eoiRisk.score ≤ 100) ∧
    (0 ≤ (analyzeCensusData rows now).overallScore ∧
      (analyzeCensusData rows now).overallScore ≤ 100) := by
  rcases eq_or_ne rows [] with hr | hr
  · subst hr
    norm_num [analyzeCensusData, emptyResult]
  · rw [analyze_nonempty rows now hr]
    set c := countIssues rows now
    set total := rows.length
    refine ⟨?_, ?_, ?_, ?_, ?_⟩
    · exact jsRound_bounds (completenessScore_bounds c total).1
        (completenessScore_bounds c total).2
    · exact jsRound_bounds (consistencyScore_bounds c total).1
        (consistencyScore_bounds c total).2
    · exact jsRound_bounds (eligibilityScore_bounds c).1 (eligibilityScore_bounds c).2
    · exact jsRound_bounds (eoiScore_bounds c total).1 (eoiScore_bounds c total).2
    · exact jsRound_bounds (weightedScore_bounds c total).1
        (weightedScore_bounds c total).2

/-- C1 witness at a concrete input. -/
theorem scores_in_range_witness :
    (0 ≤ (analyzeCensusData [] 0).subScores.completeness.score ∧
      (analyzeCensusData [] 0).subScores.completeness.score ≤ 100) ∧
    (0 ≤ (analyzeCensusData [] 0).subScores.consistency.score ∧
      (analyzeCensusData [] 0).subScores.consistency.score ≤ 100) ∧
    (0 ≤ (analyzeCensusData [] 0).subScores.eligibility.score ∧
      (analyzeCensusData [] 0).subScores.eligibility.score ≤ 100) ∧
    (0 ≤ (analyzeCensusData [] 0).subScores.eoiRisk.score ∧
      (analyzeCensusData [] 0).subScores.eoiRisk.score ≤ 100) ∧
    (0 ≤ (analyzeCensusData [] 0).overallScore ∧
      (analyzeCensusData [] 0).overallScore ≤ 100) :=
  scores_in_range [] 0

/-! ## C6: the top-risk-driver list -/

/-- The driver list is exactly the positive-count entries of the fixed
priority list, rendered in order. -/
theorem driversList_eq_filter (c : Counts) :
    driversList c =
      (([(c.exceedingGI, driverGI c.exceedingGI),
         (c.missingSalary, driverMissingSalary c.missingSalary),
         (c.waitingPeriod, driverWaiting c.waitingPeriod),
         (c.volOverMax, driverVolOverMax c.volOverMax),
         (c.dupId, driverDup c.dupId)].filter (fun p => 0 < p.1)).map Prod.snd) := by
  by_cases h1 : 0 < c.exceedingGI <;> by_cases h2 : 0 < c.missingSalary <;>
    by_cases h3 : 0 < c.waitingPeriod <;> by_cases h4 : 0 < c.volOverMax <;>
    by_cases h5 : 0 < c.dupId <;>
    simp [driversList, List.filter, h1, h2, h3, h4, h5]

/-- The driver list never has more than 5 entries. -/
theorem driversList_length_le (c : Counts) : (driversList c).length ≤ 5 := by
  unfold driversList
  split_ifs <;> simp

/-- C6: for every non-empty input, the top-risk-driver list equals the
positive-count entries of the fixed priority list (GI, missing salary,
waiting period, voluntary-over-max, duplicates), each rendered with its
literal count; it never exceeds 5 entries, and with all five conditions
triggered it has exactly those 5 entries in order. -/
theorem drivers_characterization (rows : List CensusRow) (now : Int)
    (h : rows ≠ []) :
    (analyzeCensusData rows now).topRiskDrivers =
      ((([((countIssues rows now).exceedingGI, driverGI (countIssues rows now).exceedingGI),
          ((countIssues rows now).missingSalary,
            driverMissingSalary (countIssues rows now).missingSalary),
          ((countIssues rows now).waitingPeriod,
            driverWaiting (countIssues rows now).waitingPeriod),
          ((countIssues rows now).volOverMax,
            driverVolOverMax (countIssues rows now).volOverMax),
          ((countIssues rows now).dupId,
            driverDup (countIssues rows now).dupId)].filter
            (fun p => 0 < p.1)).map Prod.snd)) ∧
    (analyzeCensusData rows now).topRiskDrivers.length ≤ 5 ∧
    (0 < (countIssues rows now).exceedingGI →
     0 < (countIssues rows now).missingSalary →
     0 < (countIssues rows now).waitingPeriod →
     0 < (countIssues rows now).volOverMax →
     0 < (countIssues rows now).dupId →
     (analyzeCensusData rows now).topRiskDrivers =
       [driverGI (countIssues rows now).exceedingGI,
        driverMissingSalary (countIssues rows now).missingSalary,
        driverWaiting (countIssues rows now).waitingPeriod,
        driverVolOverMax (countIssues rows now).volOverMax,
        driverDup (countIssues rows now).dupId]) := by
  rw [analyze_nonempty rows now h]
  set c := countIssues rows now
  have htop : (buildResult c rows.length).topRiskDrivers = driversList c := by
    show (driversList c).take 5 = driversList c
    exact List.take_of_length_le (driversList_length_le c)
  refine ⟨?_, ?_, ?_⟩
  · rw [htop]
    exact driversList_eq_filter c
  · rw [htop]
    exact driversList_length_le c
  · intro h1 h2 h3 h4 h5
    rw [htop]
    simp [driversList, h1, h2, h3, h4, h5]

/-- C6 witness: the characterization applied at a concrete input. -/
theorem drivers_characterization_witness :
    (analyzeCensusData c7rows 0).topRiskDrivers.length ≤ 5 :=
  (drivers_characterization c7rows 0 (by simp [c7rows])).2.1

/-! ## C9: monetary parsing -/

/-- C9: the monetary parser returns a numeric input unchanged; a string input
has every character other than digits, a dot and a minus stripped, the rest
parsed as a float, with 0 for an empty input or an unparsable remainder.
Currency symbols, thousands separators and stray whitespace are tolerated. -/
theorem parseMoney_spec :
    (∀ q : ℚ, parseMoney (NumOrStr.num q) = q) ∧
    (∀ s : String, s ≠ "" →
      parseMoney (NumOrStr.str s) =
        (jsParseFloat (String.mk (s.toList.filter moneyChar))).getD 0) ∧
    parseMoney (NumOrStr.str "") = 0 ∧
    parseMoney (NumOrStr.str "$55,000") = 55000 ∧
    parseMoney (NumOrStr.str " $1,234.50 ") = 1234.5 ∧
    parseMoney (NumOrStr.str "-$2,000") = -2000 ∧
    parseMoney (NumOrStr.str "abc") = 0 := by
  refine ⟨fun q => rfl, fun s hs => by simp [parseMoney, hs], rfl, ?_, ?_, ?_, ?_⟩
  · have h : jsParseFloatRaw (String.mk ("$55,000".toList.filter moneyChar)) =
        some (false, 55000, 0, 0, 0) := by decide
    simp only [parseMoney, jsParseFloat, h, Option.map_some', Option.getD_some]
    norm_num
    decide
  · have h : jsParseFloatRaw (String.mk (" $1,234.50 ".toList.filter moneyChar)) =
        some (false, 1234, 50, 2, 0) := by decide
    simp only [parseMoney, jsParseFloat, h, Option.map_some', Option.getD_some]
    norm_num
    decide
  · have h : jsParseFloatRaw (String.mk ("-$2,000".toList.filter moneyChar)) =
        some (true, 2000, 0, 0, 0) := by decide
    simp only [parseMoney, jsParseFloat, h, Option.map_some', Option.getD_some]
    norm_num
    decide
  · have h : jsParseFloatRaw (String.mk (List.filter moneyChar ['a', 'b', 'c'])) =
        none := by decide
    simp [parseMoney, jsParseFloat, h]

/-- C9 witness: the stripped-then-parsed equation at a concrete string. -/
theorem parseMoney_spec_witness :
    parseMoney (NumOrStr.str "abc") =
      (jsParseFloat (String.mk ("abc".toList.filter moneyChar))).getD 0 :=
  parseMoney_spec.2.1 "abc" (by decide)

/-! ## C8: monotonicity in the missing-salary count -/

/-- Arithmetic core of completeness antitonicity: more missing salaries never
raise the clamped completeness value. -/
theorem clampedCompleteness_anti {a b d T : ℚ} (hT : 0 < T) (hab : a ≤ b) :
    min 100 (max 0 (100 - (b * 5 + d * 4) +
      (if (b + d) / T ≤ (0.05 : ℚ) then (15 : ℚ)
       else if (b + d) / T ≤ (0.10 : ℚ) then 10 else 0))) ≤
    min 100 (max 0 (100 - (a * 5 + d * 4) +
      (if (a + d) / T ≤ (0.05 : ℚ) then (15 : ℚ)
       else if (a + d) / T ≤ (0.10 : ℚ) then 10 else 0))) := by
  have hd : (a + d) / T ≤ (b + d) / T := by gcongr
  refine min_le_min le_rfl (max_le_max le_rfl ?_)
  have hadj :
      (if (b + d) / T ≤ (0.05 : ℚ) then (15 : ℚ)
       else if (b + d) / T ≤ (0.10 : ℚ) then 10 else 0) ≤
      (if (a + d) / T ≤ (0.05 : ℚ) then (15 : ℚ)
       else if (a + d) / T ≤ (0.10 : ℚ) then 10 else 0) := by
    split_ifs <;> linarith
  linarith

/-- Arithmetic core of EOI-risk antitonicity. -/
theorem clampedEoi_anti {a b r : ℚ} (hab : a ≤ b) :
    min 100 (max 0 (100 - r * 0.8 - b * 3)) ≤
      min 100 (max 0 (100 - r * 0.8 - a * 3)) :=
  min_le_min le_rfl (max_le_max le_rfl (by linarith))

/-- C8: with the record total and all other counters fixed, increasing the
missing-salary count never increases the Completeness or EOI-Risk sub-score,
neither before nor after rounding. -/
theorem missing_salary_monotonicity (c : Counts) (total ms2 : Nat)
    (htot : 0 < total) (h : c.missingSalary ≤ ms2) :
    completenessScore { c with missingSalary := ms2 } total ≤
      completenessScore c total ∧
    eoiScore { c with missingSalary := ms2 } total ≤ eoiScore c total ∧
    jsRound (completenessScore { c with missingSalary := ms2 } total) ≤
      jsRound (completenessScore c total) ∧
    jsRound (eoiScore { c with missingSalary := ms2 } total) ≤
      jsRound (eoiScore c total) := by
  have htq : (0 : ℚ) < (total : ℚ) := by exact_mod_cast htot
  have hq : ((c.missingSalary : ℚ)) ≤ (ms2 : ℚ) := by exact_mod_cast h
  have h1 : completenessScore { c with missingSalary := ms2 } total ≤
      completenessScore c total := by
    unfold completenessScore
    unfold PENALTY_MISSING_SALARY PENALTY_MISSING_DOB
    exact clampedCompleteness_anti htq hq
  have h2 : eoiScore { c with missingSalary := ms2 } total ≤ eoiScore c total := by
    unfold eoiScore
    unfold PENALTY_EOI_MISSING_SALARY
    exact clampedEoi_anti hq
  exact ⟨h1, h2, jsRound_mono h1, jsRound_mono h2⟩

/-- C8 witness at concrete counter values. -/
theorem missing_salary_monotonicity_witness :
    completenessScore ⟨3, 0, 0, 0, 0, 0, 0⟩ 10 ≤
      completenessScore ⟨1, 0, 0, 0, 0, 0, 0⟩ 10 ∧
    eoiScore ⟨3, 0, 0, 0, 0, 0, 0⟩ 10 ≤ eoiScore ⟨1, 0, 0, 0, 0, 0, 0⟩ 10 ∧
    jsRound (completenessScore ⟨3, 0, 0, 0, 0, 0, 0⟩ 10) ≤
      jsRound (completenessScore ⟨1, 0, 0, 0, 0, 0, 0⟩ 10) ∧
    jsRound (eoiScore ⟨3, 0, 0, 0, 0, 0, 0⟩ 10) ≤
      jsRound (eoiScore ⟨1, 0, 0, 0, 0, 0, 0⟩ 10) :=
  missing_salary_monotonicity ⟨1, 0, 0, 0, 0, 0, 0⟩ 10 3 (by norm_num) (by norm_num)

/-! ## C5: the duplicate-identifier count -/

/-- Bumping a key increments its first-match count. -/
theorem getCnt_bump_self (m : List (String × Nat)) (k : String) :
    getCnt (bump m k) k = getCnt m k + 1 := by
  induction m with
  | nil => simp [bump, getCnt]
  | cons p rest ih =>
    obtain ⟨k1, c⟩ := p
    by_cases hk : k1 = k
    · subst hk
      simp [bump, getCnt]
    · simp [bump, getCnt, hk, ih]

/-- Bumping a key leaves other counts unchanged. -/
theorem getCnt_bump_ne (m : List (String × Nat)) (k k2 : String) (h : k2 ≠ k) :
    getCnt (bump m k) k2 = getCnt m k2 := by
  induction m with
  | nil => simp [bump, getCnt, Ne.symm h]
  | cons p rest ih =>
    obtain ⟨k1, c⟩ := p
    by_cases hk : k1 = k
    · subst hk
      simp [bump, getCnt, Ne.symm h]
    · simp [bump, getCnt, hk, ih]

/-- Bumping preserves the key list, or appends the new key at the end. -/
theorem mapKeys_bump (m : List (String × Nat)) (k : String) :
    mapKeys (bump m k) =
      if k ∈ mapKeys m then mapKeys m else mapKeys m ++ [k] := by
  induction m with
  | nil => simp [bump, mapKeys]
  | cons p rest ih =>
    obtain ⟨k1, c⟩ := p
    by_cases hk : k1 = k
    · subst hk
      simp [bump, mapKeys]
    · have hb : bump ((k1, c) :: rest) k = (k1, c) :: bump rest k := by
        simp [bump, hk]
      rw [hb]
      have hmk : mapKeys ((k1, c) :: bump rest k) = k1 :: mapKeys (bump rest k) := rfl
      rw [hmk, ih]
      by_cases hm : k ∈ List.map Prod.fst rest <;>
        simp [mapKeys, hm, List.mem_cons, Ne.symm hk]

/-- Bumping preserves distinctness of the keys. -/
theorem mapKeys_bump_nodup (m : List (String × Nat)) (k : String)
    (h : (mapKeys m).Nodup) : (mapKeys (bump m k)).Nodup := by
  rw [mapKeys_bump]
  split
  · exact h
  · next hmem => simp [List.nodup_append, h, hmem]

/-- Folding `bump` over a list of identifiers adds each occurrence count. -/
theorem getCnt_foldl (ids : List String) :
    ∀ (m : List (String × Nat)) (k : String),
      getCnt (ids.foldl bump m) k = getCnt m k + ids.count k := by
  induction ids with
  | nil =>
    intro m k
    simp
  | cons i rest ih =>
    intro m k
    simp only [List.foldl_cons]
    rw [ih]
    by_cases hik : i = k
    · subst hik
      rw [getCnt_bump_self]
      simp [List.count_cons]
      omega
    · rw [getCnt_bump_ne _ _ _ (fun he => hik he.symm)]
      simp [List.count_cons, hik]

/-- The accumulated keys are the initial keys plus the identifiers seen. -/
theorem mem_mapKeys_foldl (ids : List String) :
    ∀ (m : List (String × Nat)) (k : String),
      k ∈ mapKeys (ids.foldl bump m) ↔ k ∈ mapKeys m ∨ k ∈ ids := by
  induction ids with
  | nil =>
    intro m k
    simp
  | cons i rest ih =>
    intro m k
    simp only [List.foldl_cons]
    rw [ih, mapKeys_bump]
    by_cases him : i ∈ mapKeys m
    · simp only [him, if_true, List.mem_cons]
      constructor
      · tauto
      · rintro (h | rfl | h)
        · tauto
        · exact Or.inl him
        · tauto
    · simp only [him, if_false, List.mem_append, List.mem_singleton, List.mem_cons]
      tauto

/-- Folding `bump` keeps the keys distinct. -/
theorem mapKeys_foldl_nodup (ids : List String) :
    ∀ m, (mapKeys m).Nodup → (mapKeys (ids.foldl bump m)).Nodup := by
  induction ids with
  | nil => intro m h; exact h
  | cons i rest ih =>
    intro m h
    exact ih _ (mapKeys_bump_nodup m i h)

/-- With distinct keys, the excess sum is the excess of each key count. -/
theorem sumExcess_eq_keys (m : List (String × Nat)) (hnd : (mapKeys m).Nodup) :
    sumExcess m =
      ((mapKeys m).map
        (fun k => if 1 < getCnt m k then getCnt m k - 1 else 0)).sum := by
  induction m with
  | nil => simp [sumExcess, mapKeys]
  | cons p rest ih =>
    obtain ⟨k, c⟩ := p
    have hnd1 : (k :: mapKeys rest).Nodup := hnd
    have hk : k ∉ mapKeys rest := (List.nodup_cons.1 hnd1).1
    have hnd2 : (mapKeys rest).Nodup := (List.nodup_cons.1 hnd1).2
    have hmap :
        (mapKeys rest).map
          (fun k2 => if 1 < getCnt ((k, c) :: rest) k2 then
            getCnt ((k, c) :: rest) k2 - 1 else 0) =
        (mapKeys rest).map
          (fun k2 => if 1 < getCnt rest k2 then getCnt rest k2 - 1 else 0) := by
      apply List.map_congr_left
      intro k2 hk2
      have hne : ¬ k = k2 := fun he => hk (he ▸ hk2)
      simp [getCnt, hne]
    have hcnt : getCnt ((k, c) :: rest) k = c := by simp [getCnt]
    simp only [sumExcess, mapKeys, List.map_cons, List.sum_cons] at *
    rw [hcnt, hmap, ih hnd2]

/-- The excess sum of the accumulated map is the excess-occurrence sum over
the distinct identifiers. -/
theorem sumExcess_foldl (ids : List String) :
    sumExcess (ids.foldl bump []) =
      ((ids.dedup).map
        (fun k => if 1 < ids.count k then ids.count k - 1 else 0)).sum := by
  have hnd : (mapKeys (ids.foldl bump [])).Nodup :=
    mapKeys_foldl_nodup ids [] (by simp [mapKeys])
  rw [sumExcess_eq_keys _ hnd]
  have hmap :
      (mapKeys (ids.foldl bump [])).map
        (fun k => if 1 < getCnt (ids.foldl bump []) k then
          getCnt (ids.foldl bump []) k - 1 else 0) =
      (mapKeys (ids.foldl bump [])).map
        (fun k => if 1 < ids.count k then ids.count k - 1 else 0) := by
    apply List.map_congr_left
    intro k _
    rw [getCnt_foldl]
    simp [getCnt]
  rw [hmap]
  have hperm : (mapKeys (ids.foldl bump [])).Perm ids.dedup := by
    apply (List.perm_ext_iff_of_nodup hnd (List.nodup_dedup ids)).2
    intro k
    rw [List.mem_dedup, mem_mapKeys_foldl]
    simp [mapKeys]
  exact (hperm.map _).sum_eq

/-- The non-empty identifiers of a cons. -/
theorem nonEmptyIds_cons (r : CensusRow) (rest : List CensusRow) :
    nonEmptyIds (r :: rest) =
      if r.employeeId ≠ "" then r.employeeId :: nonEmptyIds rest
      else nonEmptyIds rest := by
  by_cases h : r.employeeId = "" <;> simp [nonEmptyIds, h]

/-- The map component of the counting pass folds `bump` over the non-empty
identifiers. -/
theorem snd_foldl_countStep (rows : List CensusRow) (now : Int) :
    ∀ acc : Counts × List (String × Nat),
      (rows.foldl (countStep now) acc).2 = (nonEmptyIds rows).foldl bump acc.2 := by
  induction rows with
  | nil =>
    intro acc
    simp [nonEmptyIds]
  | cons r rest ih =>
    intro acc
    simp only [List.foldl_cons]
    rw [ih, nonEmptyIds_cons]
    by_cases h : r.employeeId = "" <;> simp [countStep, h]

/-- Summing the filtered excesses equals summing the guarded excesses. -/
theorem sum_filter_excess (l : List String) (cnt : String → Nat) :
    ((l.filter (fun k => 1 < cnt k)).map (fun k => cnt k - 1)).sum =
      (l.map (fun k => if 1 < cnt k then cnt k - 1 else 0)).sum := by
  induction l with
  | nil => simp
  | cons a l ih =>
    by_cases h : 1 < cnt a <;> simp [List.filter_cons, h, ih]

/-- C5: the duplicate-identifier count is the sum, over every non-empty
identifier occurring on more than one record, of its occurrences minus one;
an identifier occurring once contributes 0 and empty identifiers are ignored. -/
theorem dup_count_correct (rows : List CensusRow) (now : Int) :
    (countIssues rows now).dupId =
      (((nonEmptyIds rows).dedup.filter
          (fun k => 1 < (nonEmptyIds rows).count k)).map
        (fun k => (nonEmptyIds rows).count k - 1)).sum := by
  have h1 : (countIssues rows now).dupId =
      sumExcess ((rows.foldl (countStep now) (initCounts, [])).2) := rfl
  rw [h1, snd_foldl_countStep rows now (initCounts, []), sum_filter_excess]
  exact sumExcess_foldl (nonEmptyIds rows)

/-! ## C2: determinism and time dependence -/

/-- A row without a parseable hire date is counted identically at any two
moments. -/
theorem countStep_time_eq (t1 t2 : Int) (r : CensusRow)
    (h : jsParseDate r.hireDate = none) (acc : Counts × List (String × Nat)) :
    countStep t1 acc r = countStep t2 acc r := by
  have hv : isValidDate r.hireDate = false := by
    unfold isValidDate
    split
    · rfl
    · simp [h]
  simp [countStep, hv]

/-- The counting pass ignores the current time when no row has a parseable
hire date. -/
theorem foldl_countStep_time (rows : List CensusRow) (t1 t2 : Int)
    (h : ∀ r ∈ rows, jsParseDate r.hireDate = none) :
    ∀ acc, rows.foldl (countStep t1) acc = rows.foldl (countStep t2) acc := by
  induction rows with
  | nil => intro acc; rfl
  | cons r rest ih =>
    intro acc
    simp only [List.foldl_cons]
    rw [countStep_time_eq t1 t2 r (h r (by simp))]
    exact ih (fun r2 hr => h r2 (by simp [hr])) _

/-- The counters ignore the current time when no row has a parseable hire
date. -/
theorem countIssues_time (rows : List CensusRow) (t1 t2 : Int)
    (h : ∀ r ∈ rows, jsParseDate r.hireDate = none) :
    countIssues rows t1 = countIssues rows t2 := by
  unfold countIssues
  rw [foldl_countStep_time rows t1 t2 h]

/-- C2 (amended): the engine is a pure total function of the record sequence
and the current time; with the time fixed it is deterministic, and when no
record carries a parseable hire date the result is the same at any two
moments.  (Runs at different moments can differ through the waiting-period
check, see the counterexample.) -/
theorem engine_time_independent (rows : List CensusRow) (t1 t2 : Int)
    (h : ∀ r ∈ rows, jsParseDate r.hireDate = none) :
    analyzeCensusData rows t1 = analyzeCensusData rows t2 := by
  unfold analyzeCensusData
  rw [countIssues_time rows t1 t2 h]

/-- C2 witness: the amended statement at a concrete input with an empty hire
date, at two different moments. -/
theorem engine_time_independent_witness :
    analyzeCensusData [mkRow "E1" "1990-01-01" 50000 ""] 0 =
      analyzeCensusData [mkRow "E1" "1990-01-01" 50000 ""] 999 :=
  engine_time_independent _ 0 999 (by
    intro r hr
    rw [List.mem_singleton] at hr
    subst hr
    rfl)

/-- Four days after hire, the waiting-period age is 4 days. -/
theorem getDaysSince_inWaiting : getDaysSince nowInWaiting "2026-10-01" = 4 := by
  have hpd : jsParseDate "2026-10-01" = some hireMs := by decide
  have habs : |nowInWaiting - hireMs| = 345600000 := by decide
  unfold getDaysSince
  rw [hpd]
  show (⌈((|nowInWaiting - hireMs| : Int) : ℚ) / ((msPerDay : Int) : ℚ)⌉ : Int) = 4
  rw [habs]
  rw [ceil_via_floor]
  norm_num [msPerDay]

/-- Sixty-one days after hire, the waiting-period age is 61 days. -/
theorem getDaysSince_afterWaiting :
    getDaysSince nowAfterWaiting "2026-10-01" = 61 := by
  have hpd : jsParseDate "2026-10-01" = some hireMs := by decide
  have habs : |nowAfterWaiting - hireMs| = 5270400000 := by decide
  unfold getDaysSince
  rw [hpd]
  show (⌈((|nowAfterWaiting - hireMs| : Int) : ℚ) / ((msPerDay : Int) : ℚ)⌉ : Int) = 61
  rw [habs]
  rw [ceil_via_floor]
  norm_num [msPerDay]

/-- The counters of the single hired row, inside the waiting period. -/
theorem countIssues_c2row_inWaiting :
    countIssues [c2row] nowInWaiting = ⟨0, 0, 0, 0, 1, 0, 0⟩ := by
  have hvd : isValidDate "2026-10-01" = true := by decide
  have hdob : isValidDate "1990-01-01" = true := by decide
  norm_num [countIssues, countStep, c2row, mkRow, parseMoney, parseFloatOrZero,
    initCounts, hvd, hdob, getDaysSince_inWaiting, sumExcess, bump,
    WAITING_PERIOD_DAYS, GI_LIMIT, PLAN_MAX_VOL_MULTIPLE, Counts.mk.injEq]
  decide

/-- The counters of the single hired row, after the waiting period. -/
theorem countIssues_c2row_afterWaiting :
    countIssues [c2row] nowAfterWaiting = ⟨0, 0, 0, 0, 0, 0, 0⟩ := by
  have hvd : isValidDate "2026-10-01" = true := by decide
  have hdob : isValidDate "1990-01-01" = true := by decide
  norm_num [countIssues, countStep, c2row, mkRow, parseMoney, parseFloatOrZero,
    initCounts, hvd, hdob, getDaysSince_afterWaiting, sumExcess, bump,
    WAITING_PERIOD_DAYS, GI_LIMIT, PLAN_MAX_VOL_MULTIPLE, Counts.mk.injEq]
  decide

/-- C2 counterexample: the same record sequence analysed at two different
moments gives different results (the waiting-period check depends on the
current time), so the engine is not bit-identical across runs at different
times. -/
theorem engine_not_time_invariant :
    analyzeCensusData [c2row] nowInWaiting ≠
      analyzeCensusData [c2row] nowAfterWaiting := by
  have he1 : (analyzeCensusData [c2row] nowInWaiting).subScores.eligibility.score =
      95 := by
    rw [analyze_nonempty _ _ (by simp), countIssues_c2row_inWaiting]
    show jsRound (eligibilityScore ⟨0, 0, 0, 0, 1, 0, 0⟩) = 95
    norm_num [eligibilityScore, jsRound, ineligibleDepCount,
      PENALTY_WAITING_PERIOD, PENALTY_INELIGIBLE_DEP]
  have he2 : (analyzeCensusData [c2row] nowAfterWaiting).subScores.eligibility.score =
      100 := by
    rw [analyze_nonempty _ _ (by simp), countIssues_c2row_afterWaiting]
    show jsRound (eligibilityScore ⟨0, 0, 0, 0, 0, 0, 0⟩) = 100
    norm_num [eligibilityScore, jsRound, ineligibleDepCount,
      PENALTY_WAITING_PERIOD, PENALTY_INELIGIBLE_DEP]
  intro heq
  rw [heq, he2] at he1
  norm_num at he1

/-! ## C7: the worked scoring example -/

/-- C7: any 10-record input with exactly 2 missing salaries, 1 missing date of
birth and no other triggered condition scores Completeness 86, Consistency
100, Eligibility 100, EOI Risk 94, overall 95, risk band Low. -/
theorem scoring_example (rows : List CensusRow) (now : Int)
    (hlen : rows.length = 10)
    (hc : countIssues rows now = ⟨2, 1, 0, 0, 0, 0, 0⟩) :
    (analyzeCensusData rows now).subScores.completeness.score = 86 ∧
    (analyzeCensusData rows now).subScores.consistency.score = 100 ∧
    (analyzeCensusData rows now).subScores.eligibility.score = 100 ∧
    (analyzeCensusData rows now).subScores.eoiRisk.score = 94 ∧
    (analyzeCensusData rows now).overallScore = 95 ∧
    (analyzeCensusData rows now).riskLevel = RiskLevel.low := by
  have hne : rows ≠ [] := by
    intro h
    rw [h] at hlen
    simp at hlen
  rw [analyze_nonempty rows now hne, hc, hlen]
  have hov : jsRound (weightedScore ⟨2, 1, 0, 0, 0, 0, 0⟩ 10) = 95 := by
    norm_num [weightedScore, completenessScore, consistencyScore,
      eligibilityScore, eoiScore, eoiRatePercent, jsRound, min_def, max_def,
      ineligibleDepCount, PENALTY_MISSING_SALARY, PENALTY_MISSING_DOB,
      PENALTY_VOL_OVER_MAX, PENALTY_ZERO_SALARY_COV, PENALTY_WAITING_PERIOD,
      PENALTY_INELIGIBLE_DEP, PENALTY_EOI_MISSING_SALARY]
  refine ⟨?_, ?_, ?_, ?_, ?_, ?_⟩
  · show jsRound (completenessScore ⟨2, 1, 0, 0, 0, 0, 0⟩ 10) = 86
    norm_num [completenessScore, jsRound, min_def, max_def,
      PENALTY_MISSING_SALARY, PENALTY_MISSING_DOB]
  · show jsRound (consistencyScore ⟨2, 1, 0, 0, 0, 0, 0⟩ 10) = 100
    norm_num [consistencyScore, jsRound, min_def, max_def,
      PENALTY_VOL_OVER_MAX, PENALTY_ZERO_SALARY_COV]
  · show jsRound (eligibilityScore ⟨2, 1, 0, 0, 0, 0, 0⟩) = 100
    norm_num [eligibilityScore, jsRound, min_def, max_def, ineligibleDepCount,
      PENALTY_WAITING_PERIOD, PENALTY_INELIGIBLE_DEP]
  · show jsRound (eoiScore ⟨2, 1, 0, 0, 0, 0, 0⟩ 10) = 94
    norm_num [eoiScore, eoiRatePercent, jsRound, min_def, max_def,
      PENALTY_EOI_MISSING_SALARY]
  · exact hov
  · show riskLevelOf (jsRound (weightedScore ⟨2, 1, 0, 0, 0, 0, 0⟩ 10)) =
      RiskLevel.low
    rw [hov]
    norm_num [riskLevelOf]

/-- The counters of the concrete ten-record example input. -/
theorem countIssues_c7rows : countIssues c7rows 0 = ⟨2, 1, 0, 0, 0, 0, 0⟩ := by
  have h1 : isValidDate "1990-01-05" = true := by decide
  have h2 : isValidDate "not-a-date" = false := by decide
  norm_num [countIssues, countStep, c7rows, mkRow, parseMoney, parseFloatOrZero,
    initCounts, h1, h2, sumExcess, bump, WAITING_PERIOD_DAYS, GI_LIMIT,
    PLAN_MAX_VOL_MULTIPLE, Counts.mk.injEq]
  all_goals decide

/-- C7 witness: the example applied to the concrete ten-record input. -/
theorem scoring_example_witness :
    (analyzeCensusData c7rows 0).subScores.completeness.score = 86 ∧
    (analyzeCensusData c7rows 0).subScores.consistency.score = 100 ∧
    (analyzeCensusData c7rows 0).subScores.eligibility.score = 100 ∧
    (analyzeCensusData c7rows 0).subScores.eoiRisk.score = 94 ∧
    (analyzeCensusData c7rows 0).overallScore = 95 ∧
    (analyzeCensusData c7rows 0).riskLevel = RiskLevel.low :=
  scoring_example c7rows 0 (by rfl) countIssues_c7rows

/-! ## C10: rounding semantics of the overall score -/

/-- The counters of the six-record rounding example. -/
theorem countIssues_c10rows :
    countIssues c10rows nowInWaiting = ⟨4, 0, 0, 0, 2, 1, 0⟩ := by
  have h1 : isValidDate "1990-01-01" = true := by decide
  have h2 : isValidDate "2026-10-01" = true := by decide
  norm_num [countIssues, countStep, c10rows, giRow, mkRow, parseMoney,
    parseFloatOrZero, initCounts, h1, h2, getDaysSince_inWaiting, sumExcess,
    bump, WAITING_PERIOD_DAYS, GI_LIMIT, PLAN_MAX_VOL_MULTIPLE, Counts.mk.injEq]
  all_goals decide

/-- C10: for every non-empty input, the overall score is the rounding of the
weighted sum of the clamped but un-rounded sub-score values, while each
reported sub-score is that value rounded; on a concrete input with a
fractional EOI-Risk value the overall score differs from the same weighted
sum taken over the reported rounded sub-scores. -/
theorem rounding_semantics :
    (∀ (rows : List CensusRow) (now : Int), rows ≠ [] →
      (analyzeCensusData rows now).overallScore =
        jsRound (completenessScore (countIssues rows now) rows.length * 0.30 +
          consistencyScore (countIssues rows now) rows.length * 0.25 +
          eligibilityScore (countIssues rows now) * 0.25 +
          eoiScore (countIssues rows now) rows.length * 0.20) ∧
      (analyzeCensusData rows now).subScores.completeness.score =
        jsRound (completenessScore (countIssues rows now) rows.length) ∧
      (analyzeCensusData rows now).subScores.consistency.score =
        jsRound (consistencyScore (countIssues rows now) rows.length) ∧
      (analyzeCensusData rows now).subScores.eligibility.score =
        jsRound (eligibilityScore (countIssues rows now)) ∧
      (analyzeCensusData rows now).subScores.eoiRisk.score =
        jsRound (eoiScore (countIssues rows now) rows.length)) ∧
    (analyzeCensusData c10rows nowInWaiting).overallScore ≠
      jsRound
        ((analyzeCensusData c10rows nowInWaiting).subScores.completeness.score * 0.30 +
         (analyzeCensusData c10rows nowInWaiting).subScores.consistency.score * 0.25 +
         (analyzeCensusData c10rows nowInWaiting).subScores.eligibility.score * 0.25 +
         (analyzeCensusData c10rows nowInWaiting).subScores.eoiRisk.score * 0.20) := by
  constructor
  · intro rows now h
    rw [analyze_nonempty rows now h]
    exact ⟨rfl, rfl, rfl, rfl, rfl⟩
  · have hres : analyzeCensusData c10rows nowInWaiting =
        buildResult ⟨4, 0, 0, 0, 2, 1, 0⟩ 6 := by
      rw [analyze_nonempty _ _ (by simp [c10rows]), countIssues_c10rows]
      rfl
    rw [hres]
    have hov : (buildResult (⟨4, 0, 0, 0, 2, 1, 0⟩ : Counts) 6).overallScore = 86 := by
      show jsRound (weightedScore ⟨4, 0, 0, 0, 2, 1, 0⟩ 6) = 86
      norm_num [weightedScore, completenessScore, consistencyScore,
        eligibilityScore, eoiScore, eoiRatePercent, jsRound, min_def, max_def,
        ineligibleDepCount, PENALTY_MISSING_SALARY, PENALTY_MISSING_DOB,
        PENALTY_VOL_OVER_MAX, PENALTY_ZERO_SALARY_COV, PENALTY_WAITING_PERIOD,
        PENALTY_INELIGIBLE_DEP, PENALTY_EOI_MISSING_SALARY]
    have hcomp :
        (buildResult (⟨4, 0, 0, 0, 2, 1, 0⟩ : Counts) 6).subScores.completeness.score =
          80 := by
      show jsRound (completenessScore ⟨4, 0, 0, 0, 2, 1, 0⟩ 6) = 80
      norm_num [completenessScore, jsRound, min_def, max_def,
        PENALTY_MISSING_SALARY, PENALTY_MISSING_DOB]
    have hcons :
        (buildResult (⟨4, 0, 0, 0, 2, 1, 0⟩ : Counts) 6).subScores.consistency.score =
          100 := by
      show jsRound (consistencyScore ⟨4, 0, 0, 0, 2, 1, 0⟩ 6) = 100
      norm_num [consistencyScore, jsRound, min_def, max_def,
        PENALTY_VOL_OVER_MAX, PENALTY_ZERO_SALARY_COV]
    have helig :
        (buildResult (⟨4, 0, 0, 0, 2, 1, 0⟩ : Counts) 6).subScores.eligibility.score =
          90 := by
      show jsRound (eligibilityScore ⟨4, 0, 0, 0, 2, 1, 0⟩) = 90
      norm_num [eligibilityScore, jsRound, min_def, max_def, ineligibleDepCount,
        PENALTY_WAITING_PERIOD, PENALTY_INELIGIBLE_DEP]
    have heoi :
        (buildResult (⟨4, 0, 0, 0, 2, 1, 0⟩ : Counts) 6).subScores.eoiRisk.score =
          75 := by
      show jsRound (eoiScore ⟨4, 0, 0, 0, 2, 1, 0⟩ 6) = 75
      norm_num [eoiScore, eoiRatePercent, jsRound, min_def, max_def,
        PENALTY_EOI_MISSING_SALARY]
    rw [hov, hcomp, hcons, helig, heoi]
    norm_num [jsRound]

/-- C10 witness: the rounding equation applied at a concrete input. -/
theorem rounding_semantics_witness :
    (analyzeCensusData c7rows 0).overallScore =
      jsRound (completenessScore (countIssues c7rows 0) c7rows.length * 0.30 +
        consistencyScore (countIssues c7rows 0) c7rows.length * 0.25 +
        eligibilityScore (countIssues c7rows 0) * 0.25 +
        eoiScore (countIssues c7rows 0) c7rows.length * 0.20) :=
  (rounding_semantics.1 c7rows 0 (by simp [c7rows])).1
